import Mathlib

/-!
Verification of the attendance-tracking views of the School-Management-System
repository (`core/views.py`) against its natural-language specification.

The relational store is shallowly embedded as lists of records; each Django
view becomes a pure function from the store (plus the request data) to a
result together with the possibly-updated store.  Dates are modelled as
natural numbers: the source compares ISO-formatted date strings
(`attendance_date > str(date.today())`), which on well-formed dates agrees
with chronological order.  Submitted checkbox data is modelled as an
association list from student id to the raw posted string, mirroring
`request.POST.get(f"status_{student.id}") == "on"`.
-/

set_option linter.unusedVariables false

/-- A `Teacher` row: primary key and owning user account
    (`Teacher` model, referenced throughout `core/views.py`). -/
structure Teacher where
  id : Nat
  user : Nat
deriving DecidableEq, Repr

/-- A `Student` row: primary key and owning user account. -/
structure Student where
  id : Nat
  user : Nat
deriving DecidableEq, Repr

/-- A `Course` row: primary key, owning teacher (nullable foreign key) and the
    many-to-many enrolled-student set, held as the list of student ids. -/
structure Course where
  id : Nat
  teacher : Option Nat
  students : List Nat
deriving DecidableEq, Repr

/-- An `Attendance` row: student id, course id, date and boolean status. -/
structure Attendance where
  student : Nat
  course : Nat
  date : Nat
  status : Bool
deriving DecidableEq, Repr

/-- The relational store backing the views. -/
structure Db where
  teachers : List Teacher
  students : List Student
  courses : List Course
  attendance : List Attendance
deriving DecidableEq, Repr

/-- `Teacher.objects.get(user=request.user)` — `find?` mirrors the unique
    lookup by owning user (at most one row matches under the model's
    one-to-one constraint). -/
def findTeacher (db : Db) (user : Nat) : Option Teacher :=
  db.teachers.find? (fun t => t.user == user)

/-- `Student.objects.get(user=request.user)`. -/
def findStudent (db : Db) (user : Nat) : Option Student :=
  db.students.find? (fun s => s.user == user)

/-- `Course.objects.get(id=course_id)`. -/
def findCourse (db : Db) (cid : Nat) : Option Course :=
  db.courses.find? (fun c => c.id == cid)

/-- Outcome of the role dispatch performed by the `dashboard` view. -/
inductive Role where
  | teacher (t : Teacher)
  | student (s : Student)
  | general
deriving DecidableEq, Repr

/-- Role resolution of `dashboard` (views.py lines 40-51): try the Teacher
    lookup first, then the Student lookup, else the general role. -/
def resolveRole (db : Db) (user : Nat) : Role :=
  match findTeacher db user with
  | some t => .teacher t
  | none =>
    match findStudent db user with
    | some s => .student s
    | none => .general

/-- Result rendered or redirected to by the `dashboard` view. -/
inductive DashboardResult where
  | redirectTeacher
  | redirectStudent
  | renderGeneral (totalStudents totalTeachers totalCourses todayAttendance : Nat)
deriving DecidableEq, Repr

/-- The `dashboard` view (views.py lines 35-65): role dispatch plus the global
    counts of the general branch.  The store is returned unchanged: the view
    only reads. -/
def dashboard (db : Db) (user : Nat) (today : Nat) : DashboardResult × Db :=
  match resolveRole db user with
  | .teacher _ => (.redirectTeacher, db)
  | .student _ => (.redirectStudent, db)
  | .general =>
    (.renderGeneral db.students.length db.teachers.length db.courses.length
      (db.attendance.countP (fun r => r.date == today)), db)

/-- The data a single mark-attendance form submission carries
    (the fields of the `Attendance` model). -/
structure SingleSubmission where
  student : Nat
  course : Nat
  date : Nat
  status : Bool
deriving DecidableEq, Repr

/-- The `mark_attendance` view (views.py lines 68-72).  `formValid` abstracts
    `form.is_valid()` of `AttendanceForm`.  Modelled from the spec: the form
    class lives in `core/forms.py`, which is not part of the given source; the
    spec scopes "form field validation beyond the rules stated in §4" out and
    states no further rule for this route, so validity is a parameter and
    `form.save()` creates one `Attendance` row from the submitted fields.
    The view applies no check of its own: `user` and `today` are received (the
    request carries an identity and the server has a clock) but never read. -/
def markAttendance (db : Db) (user : Nat) (today : Nat) (formValid : Bool)
    (sub : SingleSubmission) : Db :=
  if formValid then
    { db with attendance :=
        db.attendance ++ [⟨sub.student, sub.course, sub.date, sub.status⟩] }
  else db

/-- Per-course statistics of the `teacher_dashboard` view
    (views.py lines 92-115). -/
structure TeacherCourseStats where
  totalClasses : Nat
  totalRecords : Nat
  presentCount : Nat
  absentCount : Nat
  enrolledStudents : Nat
deriving DecidableEq, Repr

/-- One entry of `course_data` in `teacher_dashboard`: filters over the
    Attendance store partitioned by course and by status;
    `total_classes` counts distinct dates
    (`.values('date').distinct().count()`). -/
def teacherCourseStats (db : Db) (c : Course) : TeacherCourseStats :=
  let rows := db.attendance.filter (fun r => r.course == c.id)
  { totalClasses := ((rows.map (fun r => r.date)).dedup).length
    totalRecords := rows.length
    presentCount := (rows.filter (fun r => r.status == true)).length
    absentCount := (rows.filter (fun r => r.status == false)).length
    enrolledStudents := c.students.length }

/-- The `teacher_dashboard` view (views.py lines 75-123): `none` models the
    `Http404` raised for a non-teacher; otherwise the per-course statistics
    of the teacher's own courses. -/
def teacherDashboard (db : Db) (user : Nat) : Option (List TeacherCourseStats) :=
  match findTeacher db user with
  | none => none
  | some t =>
    some ((db.courses.filter (fun c => c.teacher == some t.id)).map
      (teacherCourseStats db))

/-- Rounding to one decimal place, as in Python's `round(x, 1)`:
    the value is scaled by ten, rounded to the nearest integer and scaled
    back.  (Python rounds floats half-to-even; on the exact rationals of the
    spec's formula the two conventions differ only at exact half-tenths.) -/
def round1 (q : ℚ) : ℚ := (round (q * 10) : ℚ) / 10

/-- Per-course statistics of the `student_dashboard` view. -/
structure StudentCourseStats where
  presentCount : Nat
  absentCount : Nat
  totalRecords : Nat
  percentage : ℚ
deriving DecidableEq, Repr

/-- One entry of `course_data` in `student_dashboard` (views.py lines
    147-178): counts over this student's rows in this course, and the
    percentage `round(present / total * 100, 1)` when any record exists,
    otherwise the initial `0`. -/
def studentCourseStats (db : Db) (sid : Nat) (c : Course) : StudentCourseStats :=
  let records := db.attendance.filter
    (fun r => r.student == sid && r.course == c.id)
  let presentCount := (records.filter (fun r => r.status == true)).length
  let absentCount := (records.filter (fun r => r.status == false)).length
  let totalRecords := records.length
  { presentCount := presentCount
    absentCount := absentCount
    totalRecords := totalRecords
    percentage :=
      if totalRecords > 0 then
        round1 ((presentCount : ℚ) / (totalRecords : ℚ) * 100)
      else 0 }

/-- Aggregated output of the `student_dashboard` view. -/
structure StudentSummary where
  perCourse : List StudentCourseStats
  totalPresent : Nat
  totalAbsent : Nat
  totalClasses : Nat
  overallPercentage : ℚ
deriving DecidableEq, Repr

/-- The aggregation of `student_dashboard` (views.py lines 126-198): the
    enrolled courses are traversed accumulating `total_present`,
    `total_absent` and `total_classes`, and the overall percentage is
    computed from those accumulated sums. -/
def studentDashboard (db : Db) (sid : Nat) : StudentSummary :=
  let courses := db.courses.filter (fun c => c.students.contains sid)
  let acc := courses.foldl
    (fun (acc : Nat × Nat × Nat) c =>
      (acc.1 + (studentCourseStats db sid c).presentCount,
        acc.2.1 + (studentCourseStats db sid c).absentCount,
        acc.2.2 + (studentCourseStats db sid c).totalRecords))
    (0, 0, 0)
  { perCourse := courses.map (studentCourseStats db sid)
    totalPresent := acc.1
    totalAbsent := acc.2.1
    totalClasses := acc.2.2
    overallPercentage :=
      if acc.2.2 > 0 then
        round1 ((acc.1 : ℚ) / (acc.2.2 : ℚ) * 100)
      else 0 }

/-- `request.POST.get(f"status_{student.id}") == "on"` (views.py line 266):
    the submitted mapping is the association list of checkbox values keyed by
    student id; a missing key (Python `None`) never equals `"on"`, so absence
    is the default. -/
def statusOf (statuses : List (Nat × String)) (sid : Nat) : Bool :=
  match statuses.lookup sid with
  | some v => v == "on"
  | none => false

/-- The composite key (student, course, date) of an `Attendance` row. -/
def keyMatch (sid cid d : Nat) (r : Attendance) : Bool :=
  r.student == sid && r.course == cid && r.date == d

/-- Overwrite the status of a row when it carries the given composite key,
    leave it unchanged otherwise. -/
def updStatus (sid cid d : Nat) (st : Bool) (r : Attendance) : Attendance :=
  if keyMatch sid cid d r then { r with status := st } else r

/-- `Attendance.objects.update_or_create(student=..., course=..., date=...,
    defaults={'status': status})` (views.py lines 268-273): if a row with the
    composite key exists its status is overwritten, else a row is created.
    (Django updates the unique matching row; under the store invariant of at
    most one row per key — `NoDupKeys` below — updating every match is the
    same operation.) -/
def upsertRow (sid cid d : Nat) (st : Bool) (rows : List Attendance) :
    List Attendance :=
  if rows.any (keyMatch sid cid d) then rows.map (updStatus sid cid d st)
  else rows ++ [⟨sid, cid, d, st⟩]

/-- The per-student upsert loop of `bulk_attendance` (views.py lines
    265-273): one upsert per currently enrolled student, status taken from
    the submitted mapping. -/
def markLoop (students : List Nat) (cid d : Nat)
    (statuses : List (Nat × String)) (rows : List Attendance) : List Attendance :=
  students.foldl (fun acc sid => upsertRow sid cid d (statusOf statuses sid) acc) rows

/-- Outcome of a POST to `bulk_attendance`.  `futureDateError` renders the
    form with "Future attendance not allowed"; `permissionError` renders it
    with the permission message; `courseMissing` is the uncaught
    `Course.DoesNotExist` of line 251 propagating out of the view (an
    unhandled server failure, not a rendered message); `redirectOk` is the
    final redirect after the upsert loop. -/
inductive BulkOutcome where
  | futureDateError
  | courseMissing
  | permissionError
  | redirectOk
deriving DecidableEq, Repr

/-- The POST branch of `bulk_attendance` (views.py lines 237-275), in source
    order: the future-date check first, then the course lookup (uncaught on
    failure), then the ownership check when the requester is a teacher, then
    the upsert loop over the course's current enrolled set. -/
def bulkAttendancePost (db : Db) (user : Nat) (courseId : Nat) (d : Nat)
    (today : Nat) (statuses : List (Nat × String)) : BulkOutcome × Db :=
  if today < d then (.futureDateError, db)
  else
    match findCourse db courseId with
    | none => (.courseMissing, db)
    | some course =>
      match findTeacher db user with
      | some t =>
        if course.teacher ≠ some t.id then (.permissionError, db)
        else
          (.redirectOk, { db with attendance := markLoop course.students course.id d statuses db.attendance })
      | none =>
        (.redirectOk, { db with attendance := markLoop course.students course.id d statuses db.attendance })

/-- The GET branch of `bulk_attendance` (views.py lines 210-235, 277-282):
    resolves the optional `?course=ID` pre-selection.  A nonexistent id is
    swallowed by the `except Course.DoesNotExist: pass` (line 234), leaving
    no course selected; a teacher asking for another teacher's course is
    reset to no selection; otherwise the course and its enrolled students
    are selected.  The store is returned unchanged. -/
def bulkAttendanceGet (db : Db) (user : Nat) (courseParam : Option Nat) :
    Option Course × Option (List Nat) × Db :=
  match courseParam with
  | none => (none, none, db)
  | some cid =>
    match findCourse db cid with
    | none => (none, none, db)
    | some c =>
      match findTeacher db user with
      | some t =>
        if c.teacher ≠ some t.id then (none, none, db)
        else (some c, some c.students, db)
      | none => (some c, some c.students, db)

/-- Two attendance rows carry the same composite key. -/
def sameKey (a b : Attendance) : Prop :=
  a.student = b.student ∧ a.course = b.course ∧ a.date = b.date

instance (a b : Attendance) : Decidable (sameKey a b) := by
  unfold sameKey; infer_instance

/-- The data-model invariant: at most one Attendance row per
    (student, course, date) composite key. -/
def NoDupKeys (rows : List Attendance) : Prop :=
  rows.Pairwise (fun a b => ¬ sameKey a b)

instance (rows : List Attendance) : Decidable (NoDupKeys rows) := by
  unfold NoDupKeys; infer_instance

/-- A store with one teacher (user 10) owning course 1 with students 5 and 6,
    and a pre-existing absent row for (5, 1, 3). -/
def exampleDbBulk : Db :=
  ⟨[⟨1, 10⟩], [], [⟨1, some 1, [5, 6]⟩], [⟨5, 1, 3, false⟩]⟩

/-- A store with two teachers (users 10 and 20) each owning one course. -/
def exampleDbAuth : Db :=
  ⟨[⟨1, 10⟩, ⟨2, 20⟩], [], [⟨1, some 1, [5]⟩, ⟨2, some 2, [6]⟩], []⟩

/-- A store whose only course has id 1 (id 99 does not exist). -/
def exampleDbMissing : Db := ⟨[], [], [⟨1, some 1, [5]⟩], []⟩

/-- Student 1 is enrolled in course 1 (9 of 10 days present) and course 2
    (0 of 1 days present) — the worked example of the percentage-weighting
    property. -/
def exampleDbPct : Db :=
  ⟨[], [⟨1, 20⟩], [⟨1, none, [1]⟩, ⟨2, none, [1]⟩],
    [⟨1, 1, 1, true⟩, ⟨1, 1, 2, true⟩, ⟨1, 1, 3, true⟩, ⟨1, 1, 4, true⟩,
     ⟨1, 1, 5, true⟩, ⟨1, 1, 6, true⟩, ⟨1, 1, 7, true⟩, ⟨1, 1, 8, true⟩,
     ⟨1, 1, 9, true⟩, ⟨1, 1, 10, false⟩, ⟨1, 2, 1, false⟩]⟩

/-- Teacher 1 (user 10) owns course 1 with students 1 and 2 and attendance
    rows {(1,1,d1,true), (1,1,d2,false), (2,1,d1,true)} with d1 = 1, d2 = 2 —
    the worked example of the aggregation property. -/
def exampleDbAgg : Db :=
  ⟨[⟨1, 10⟩], [], [⟨1, some 1, [1, 2]⟩],
    [⟨1, 1, 1, true⟩, ⟨1, 1, 2, false⟩, ⟨2, 1, 1, true⟩]⟩

/-- User 7 has both a Teacher row and a Student row. -/
def exampleDbRole : Db := ⟨[⟨1, 7⟩], [⟨2, 7⟩], [], []⟩

/-! ### Lemmas about the composite key and the upsert -/

theorem keyMatch_eq_true {sid cid d : Nat} {r : Attendance} :
    keyMatch sid cid d r = true ↔ r.student = sid ∧ r.course = cid ∧ r.date = d := by
  simp [keyMatch, and_assoc]

theorem keyMatch_mk (sid cid d : Nat) (st : Bool) :
    keyMatch sid cid d ⟨sid, cid, d, st⟩ = true := by
  simp [keyMatch]

theorem updStatus_keyMatch (sid cid d s' c' d' : Nat) (st : Bool) (r : Attendance) :
    keyMatch s' c' d' (updStatus sid cid d st r) = keyMatch s' c' d' r := by
  by_cases h : keyMatch sid cid d r = true
  · unfold updStatus
    rw [if_pos h]
    simp [keyMatch]
  · unfold updStatus
    rw [if_neg h]

theorem updStatus_of_not_match (sid cid d : Nat) (st : Bool) (r : Attendance)
    (h : keyMatch sid cid d r = false) : updStatus sid cid d st r = r := by
  unfold updStatus
  simp [h]

theorem updStatus_of_match (sid cid d : Nat) (st : Bool) (r : Attendance)
    (h : keyMatch sid cid d r = true) :
    updStatus sid cid d st r = ⟨sid, cid, d, st⟩ := by
  cases r
  simp [keyMatch] at h
  simp [updStatus, keyMatch, h]

theorem sameKey_updStatus (sid cid d : Nat) (st : Bool) (a b : Attendance) :
    sameKey (updStatus sid cid d st a) (updStatus sid cid d st b) ↔ sameKey a b := by
  unfold updStatus
  by_cases ha : keyMatch sid cid d a = true <;>
    by_cases hb : keyMatch sid cid d b = true <;>
      simp [ha, hb, sameKey]

theorem filter_map_updStatus_other (sid cid d s' c' d' : Nat) (st : Bool)
    (hne : ¬(sid = s' ∧ cid = c' ∧ d = d')) :
    ∀ rows : List Attendance,
      (rows.map (updStatus sid cid d st)).filter (keyMatch s' c' d') =
        rows.filter (keyMatch s' c' d')
  | [] => rfl
  | r :: rs => by
    rw [List.map_cons]
    by_cases h : keyMatch s' c' d' r = true
    · have hr : keyMatch sid cid d r = false := by
        cases hx : keyMatch sid cid d r with
        | false => rfl
        | true =>
          obtain ⟨a1, a2, a3⟩ := keyMatch_eq_true.mp hx
          obtain ⟨b1, b2, b3⟩ := keyMatch_eq_true.mp h
          exact absurd ⟨a1.symm.trans b1, a2.symm.trans b2, a3.symm.trans b3⟩ hne
      rw [updStatus_of_not_match sid cid d st r hr]
      rw [List.filter_cons_of_pos h, List.filter_cons_of_pos h]
      rw [filter_map_updStatus_other sid cid d s' c' d' st hne rs]
    · have h2 : keyMatch s' c' d' (updStatus sid cid d st r) ≠ true := by
        rw [updStatus_keyMatch]
        exact h
      rw [List.filter_cons_of_neg h2, List.filter_cons_of_neg h]
      exact filter_map_updStatus_other sid cid d s' c' d' st hne rs

theorem upsert_filter_other (sid cid d s' c' d' : Nat) (st : Bool)
    (rows : List Attendance) (hne : ¬(sid = s' ∧ cid = c' ∧ d = d')) :
    (upsertRow sid cid d st rows).filter (keyMatch s' c' d') =
      rows.filter (keyMatch s' c' d') := by
  unfold upsertRow
  by_cases h : rows.any (keyMatch sid cid d) = true
  · rw [if_pos h]
    exact filter_map_updStatus_other sid cid d s' c' d' st hne rows
  · rw [if_neg h, List.filter_append]
    have hx : keyMatch s' c' d' (⟨sid, cid, d, st⟩ : Attendance) ≠ true := by
      intro hc
      obtain ⟨b1, b2, b3⟩ := keyMatch_eq_true.mp hc
      exact hne ⟨b1, b2, b3⟩
    rw [List.filter_cons_of_neg hx]
    simp

theorem upsert_cons_not_match (sid cid d : Nat) (st : Bool) (r : Attendance)
    (rs : List Attendance) (hk : keyMatch sid cid d r = false) :
    (upsertRow sid cid d st (r :: rs)).filter (keyMatch sid cid d) =
      (upsertRow sid cid d st rs).filter (keyMatch sid cid d) := by
  unfold upsertRow
  rw [List.any_cons, hk, Bool.false_or]
  by_cases h2 : rs.any (keyMatch sid cid d) = true
  · rw [if_pos h2, if_pos h2, List.map_cons,
      updStatus_of_not_match sid cid d st r hk,
      List.filter_cons_of_neg (by rw [hk]; exact Bool.false_ne_true)]
  · rw [if_neg h2, if_neg h2, List.cons_append,
      List.filter_cons_of_neg (by rw [hk]; exact Bool.false_ne_true)]

theorem upsert_filter_self (sid cid d : Nat) (st : Bool) :
    ∀ rows : List Attendance, NoDupKeys rows →
      (upsertRow sid cid d st rows).filter (keyMatch sid cid d) =
        [⟨sid, cid, d, st⟩]
  | [], _ => by
    unfold upsertRow
    rw [if_neg (by simp)]
    simp [keyMatch_mk]
  | r :: rs, hnd => by
    obtain ⟨hhead, htail⟩ := List.pairwise_cons.mp hnd
    by_cases hk : keyMatch sid cid d r = true
    · have hany : (r :: rs).any (keyMatch sid cid d) = true := by
        rw [List.any_cons, hk, Bool.true_or]
      unfold upsertRow
      rw [if_pos hany, List.map_cons, updStatus_of_match sid cid d st r hk,
        List.filter_cons_of_pos (keyMatch_mk sid cid d st)]
      have hrest : ((rs.map (updStatus sid cid d st)).filter
          (keyMatch sid cid d)) = [] := by
        rw [List.filter_eq_nil_iff]
        intro y hy
        obtain ⟨x, hx, rfl⟩ := List.mem_map.mp hy
        rw [updStatus_keyMatch]
        intro hx2
        obtain ⟨a1, a2, a3⟩ := keyMatch_eq_true.mp hk
        obtain ⟨g1, g2, g3⟩ := keyMatch_eq_true.mp hx2
        exact hhead x hx ⟨a1.trans g1.symm, a2.trans g2.symm, a3.trans g3.symm⟩
      rw [hrest]
    · rw [upsert_cons_not_match sid cid d st r rs
        (Bool.not_eq_true _ ▸ hk : keyMatch sid cid d r = false)]
      exact upsert_filter_self sid cid d st rs htail

theorem upsert_noDup (sid cid d : Nat) (st : Bool) (rows : List Attendance)
    (h : NoDupKeys rows) : NoDupKeys (upsertRow sid cid d st rows) := by
  unfold upsertRow NoDupKeys
  by_cases hany : rows.any (keyMatch sid cid d) = true
  · rw [if_pos hany, List.pairwise_map]
    exact h.imp (fun hab hc => hab ((sameKey_updStatus sid cid d st _ _).mp hc))
  · rw [if_neg hany]
    rw [List.pairwise_append]
    refine ⟨h, List.pairwise_singleton _ _, ?_⟩
    intro a ha b hb
    have hb2 : b = ⟨sid, cid, d, st⟩ := by
      cases hb with
      | head => rfl
      | tail _ h2 => exact absurd h2 (List.not_mem_nil b)
    subst hb2
    intro hsk
    obtain ⟨h1, h2, h3⟩ := hsk
    have hka : keyMatch sid cid d a = true := keyMatch_eq_true.mpr ⟨h1, h2, h3⟩
    exact hany (List.any_eq_true.mpr ⟨a, ha, hka⟩)

theorem upsert_noop (sid cid d : Nat) (st : Bool) (rows : List Attendance)
    (h : rows.filter (keyMatch sid cid d) = [⟨sid, cid, d, st⟩]) :
    upsertRow sid cid d st rows = rows := by
  have hmem : (⟨sid, cid, d, st⟩ : Attendance) ∈ rows.filter (keyMatch sid cid d) := by
    rw [h]
    exact List.mem_singleton.mpr rfl
  obtain ⟨hmem', hk⟩ := List.mem_filter.mp hmem
  have hany : rows.any (keyMatch sid cid d) = true :=
    List.any_eq_true.mpr ⟨_, hmem', hk⟩
  unfold upsertRow
  rw [if_pos hany]
  have hid : ∀ x ∈ rows, updStatus sid cid d st x = id x := by
    intro x hx
    by_cases hkx : keyMatch sid cid d x = true
    · have hxf : x ∈ rows.filter (keyMatch sid cid d) := List.mem_filter.mpr ⟨hx, hkx⟩
      rw [h] at hxf
      have hxeq : x = ⟨sid, cid, d, st⟩ := List.mem_singleton.mp hxf
      subst hxeq
      rw [updStatus_of_match sid cid d st _ hk]
      rfl
    · rw [updStatus_of_not_match sid cid d st x (Bool.not_eq_true _ ▸ hkx)]
      rfl
  rw [List.map_congr_left hid, List.map_id]

/-! ### Lemmas about the bulk upsert loop -/

theorem markLoop_cons (a : Nat) (as : List Nat) (cid d : Nat)
    (statuses : List (Nat × String)) (rows : List Attendance) :
    markLoop (a :: as) cid d statuses rows =
      markLoop as cid d statuses (upsertRow a cid d (statusOf statuses a) rows) := rfl

theorem markLoop_noDup (cid d : Nat) (statuses : List (Nat × String)) :
    ∀ (students : List Nat) (rows : List Attendance), NoDupKeys rows →
      NoDupKeys (markLoop students cid d statuses rows)
  | [], _, h => h
  | a :: as, rows, h => by
    rw [markLoop_cons]
    exact markLoop_noDup cid d statuses as _
      (upsert_noDup a cid d (statusOf statuses a) rows h)

theorem markLoop_filter_not_mem (cid d : Nat) (statuses : List (Nat × String))
    (sid : Nat) :
    ∀ (students : List Nat) (rows : List Attendance), sid ∉ students →
      (markLoop students cid d statuses rows).filter (keyMatch sid cid d) =
        rows.filter (keyMatch sid cid d)
  | [], _, _ => rfl
  | a :: as, rows, hs => by
    rw [markLoop_cons]
    have hne : a ≠ sid := fun h => hs (h ▸ List.mem_cons_self a as)
    rw [markLoop_filter_not_mem cid d statuses sid as _
      (fun h => hs (List.mem_cons_of_mem a h))]
    exact upsert_filter_other a cid d sid cid d (statusOf statuses a) rows
      (fun h => hne h.1)

theorem markLoop_filter_mem (cid d : Nat) (statuses : List (Nat × String)) :
    ∀ (students : List Nat) (rows : List Attendance), NoDupKeys rows →
      ∀ sid ∈ students,
        (markLoop students cid d statuses rows).filter (keyMatch sid cid d) =
          [⟨sid, cid, d, statusOf statuses sid⟩]
  | [], _, _, sid, hs => absurd hs (List.not_mem_nil sid)
  | a :: as, rows, hnd, sid, hs => by
    rw [markLoop_cons]
    by_cases hin : sid ∈ as
    · exact markLoop_filter_mem cid d statuses as _
        (upsert_noDup a cid d (statusOf statuses a) rows hnd) sid hin
    · have hsa : sid = a := by
        cases List.mem_cons.mp hs with
        | inl h => exact h
        | inr h => exact absurd h hin
      subst hsa
      rw [markLoop_filter_not_mem cid d statuses sid as _ hin]
      exact upsert_filter_self sid cid d (statusOf statuses sid) rows hnd

theorem markLoop_idem (cid d : Nat) (statuses : List (Nat × String)) :
    ∀ (students : List Nat) (rows : List Attendance),
      (∀ sid ∈ students, rows.filter (keyMatch sid cid d) =
        [⟨sid, cid, d, statusOf statuses sid⟩]) →
      markLoop students cid d statuses rows = rows
  | [], _, _ => rfl
  | a :: as, rows, h => by
    rw [markLoop_cons,
      upsert_noop a cid d (statusOf statuses a) rows (h a (List.mem_cons_self a as))]
    exact markLoop_idem cid d statuses as rows
      (fun sid hs => h sid (List.mem_cons_of_mem a hs))

theorem markLoop_twice (cid d : Nat) (statuses : List (Nat × String))
    (students : List Nat) (rows : List Attendance) (hnd : NoDupKeys rows) :
    markLoop students cid d statuses (markLoop students cid d statuses rows) =
      markLoop students cid d statuses rows :=
  markLoop_idem cid d statuses students _
    (fun sid hs => markLoop_filter_mem cid d statuses students rows hnd sid hs)

/-! ### Lemma about the student-dashboard accumulation -/

theorem studentTotals_foldl (db : Db) (sid : Nat) :
    ∀ (cs : List Course) (p a t : Nat),
      cs.foldl
        (fun (acc : Nat × Nat × Nat) c =>
          (acc.1 + (studentCourseStats db sid c).presentCount,
            acc.2.1 + (studentCourseStats db sid c).absentCount,
            acc.2.2 + (studentCourseStats db sid c).totalRecords))
        (p, a, t) =
      (p + (cs.map (fun c => (studentCourseStats db sid c).presentCount)).sum,
        a + (cs.map (fun c => (studentCourseStats db sid c).absentCount)).sum,
        t + (cs.map (fun c => (studentCourseStats db sid c).totalRecords)).sum)
  | [], p, a, t => by simp
  | c :: cs, p, a, t => by
    rw [List.foldl_cons, studentTotals_foldl db sid cs]
    simp only [List.map_cons, List.sum_cons]
    refine Prod.ext ?_ (Prod.ext ?_ ?_) <;> dsimp <;> omega

/-! ### Branch lemmas for the bulk POST handler -/

theorem bulkPost_future (db : Db) (u cid d today : Nat)
    (statuses : List (Nat × String)) (hfut : today < d) :
    bulkAttendancePost db u cid d today statuses = (.futureDateError, db) := by
  unfold bulkAttendancePost
  rw [if_pos hfut]

theorem bulkPost_missing (db : Db) (u cid d today : Nat)
    (statuses : List (Nat × String)) (hfut : ¬ today < d)
    (hc : findCourse db cid = none) :
    bulkAttendancePost db u cid d today statuses = (.courseMissing, db) := by
  unfold bulkAttendancePost
  rw [if_neg hfut, hc]

theorem bulkPost_perm (db : Db) (u cid d today : Nat)
    (statuses : List (Nat × String)) (course : Course) (t : Teacher)
    (hfut : ¬ today < d) (hc : findCourse db cid = some course)
    (ht : findTeacher db u = some t) (hp : course.teacher ≠ some t.id) :
    bulkAttendancePost db u cid d today statuses = (.permissionError, db) := by
  unfold bulkAttendancePost
  rw [if_neg hfut, hc]
  show (match findTeacher db u with
    | some t =>
      if course.teacher ≠ some t.id then (BulkOutcome.permissionError, db)
      else (BulkOutcome.redirectOk, { db with attendance := markLoop course.students course.id d statuses db.attendance })
    | none =>
      (BulkOutcome.redirectOk, { db with attendance := markLoop course.students course.id d statuses db.attendance })) =
    (BulkOutcome.permissionError, db)
  rw [ht]
  show (if course.teacher ≠ some t.id then (BulkOutcome.permissionError, db)
    else (BulkOutcome.redirectOk, { db with attendance := markLoop course.students course.id d statuses db.attendance })) =
    (BulkOutcome.permissionError, db)
  rw [if_pos hp]

theorem bulkPost_run_teacher (db : Db) (u cid d today : Nat)
    (statuses : List (Nat × String)) (course : Course) (t : Teacher)
    (hfut : ¬ today < d) (hc : findCourse db cid = some course)
    (ht : findTeacher db u = some t) (hp : course.teacher = some t.id) :
    bulkAttendancePost db u cid d today statuses =
      (.redirectOk, { db with attendance := markLoop course.students course.id d statuses db.attendance }) := by
  unfold bulkAttendancePost
  rw [if_neg hfut, hc]
  show (match findTeacher db u with
    | some t =>
      if course.teacher ≠ some t.id then (BulkOutcome.permissionError, db)
      else (BulkOutcome.redirectOk, { db with attendance := markLoop course.students course.id d statuses db.attendance })
    | none =>
      (BulkOutcome.redirectOk, { db with attendance := markLoop course.students course.id d statuses db.attendance })) = _
  rw [ht]
  show (if course.teacher ≠ some t.id then (BulkOutcome.permissionError, db)
    else (BulkOutcome.redirectOk, { db with attendance := markLoop course.students course.id d statuses db.attendance })) = _
  rw [if_neg (by rw [hp]; exact fun h => h rfl)]

theorem bulkPost_run_general (db : Db) (u cid d today : Nat)
    (statuses : List (Nat × String)) (course : Course)
    (hfut : ¬ today < d) (hc : findCourse db cid = some course)
    (ht : findTeacher db u = none) :
    bulkAttendancePost db u cid d today statuses =
      (.redirectOk, { db with attendance := markLoop course.students course.id d statuses db.attendance }) := by
  unfold bulkAttendancePost
  rw [if_neg hfut, hc]
  show (match findTeacher db u with
    | some t =>
      if course.teacher ≠ some t.id then (BulkOutcome.permissionError, db)
      else (BulkOutcome.redirectOk, { db with attendance := markLoop course.students course.id d statuses db.attendance })
    | none =>
      (BulkOutcome.redirectOk, { db with attendance := markLoop course.students course.id d statuses db.attendance })) = _
  rw [ht]

/-! ### Claim theorems -/

/-- C1: after a successful bulk attendance submission, every student
    currently enrolled in the submitted course has exactly one Attendance row
    for (student, course, date) — the filter by that composite key is exactly
    one row — and that row's status equals the submitted mapping's value for
    the student's id, defaulting to false (absent) when the student's key is
    missing from the mapping. -/
theorem bulk_completeness (db : Db) (u cid d today : Nat)
    (statuses : List (Nat × String)) (course : Course)
    (hnd : NoDupKeys db.attendance)
    (hfind : findCourse db cid = some course)
    (hok : (bulkAttendancePost db u cid d today statuses).1 = .redirectOk) :
    ∀ sid ∈ course.students,
      ((bulkAttendancePost db u cid d today statuses).2.attendance.filter
          (keyMatch sid course.id d)) =
        [⟨sid, course.id, d, statusOf statuses sid⟩] ∧
      (statuses.lookup sid = none → statusOf statuses sid = false) := by
  intro sid hs
  refine ⟨?_, fun h => by unfold statusOf; rw [h]⟩
  by_cases hfut : today < d
  · rw [bulkPost_future db u cid d today statuses hfut] at hok
    simp at hok
  · cases ht : findTeacher db u with
    | some t =>
      by_cases hp : course.teacher = some t.id
      · rw [bulkPost_run_teacher db u cid d today statuses course t hfut hfind ht hp]
        exact markLoop_filter_mem course.id d statuses course.students
          db.attendance hnd sid hs
      · rw [bulkPost_perm db u cid d today statuses course t hfut hfind ht hp] at hok
        simp at hok
    | none =>
      rw [bulkPost_run_general db u cid d today statuses course hfut hfind ht]
      exact markLoop_filter_mem course.id d statuses course.students
        db.attendance hnd sid hs

/-- Witness for C1: in `exampleDbBulk` (course 1 with students 5 and 6, a
    stale absent row for (5,1,3)), submitting date 3 with student 5 checked
    leaves exactly one row for (5,1,3), now present, and exactly one row for
    (6,1,3), absent by default. -/
theorem bulk_completeness_witness :
    NoDupKeys exampleDbBulk.attendance ∧
    ((bulkAttendancePost exampleDbBulk 10 1 3 3 [(5, "on")]).2.attendance.filter
        (keyMatch 5 1 3)) = [⟨5, 1, 3, statusOf [(5, "on")] 5⟩] ∧
    ((bulkAttendancePost exampleDbBulk 10 1 3 3 [(5, "on")]).2.attendance.filter
        (keyMatch 6 1 3)) = [⟨6, 1, 3, statusOf [(5, "on")] 6⟩] := by
  refine ⟨by decide, ?_, ?_⟩
  · exact (bulk_completeness exampleDbBulk 10 1 3 3 [(5, "on")] ⟨1, some 1, [5, 6]⟩
      (by decide) (by decide) (by decide) 5 (by decide)).1
  · exact (bulk_completeness exampleDbBulk 10 1 3 3 [(5, "on")] ⟨1, some 1, [5, 6]⟩
      (by decide) (by decide) (by decide) 6 (by decide)).1

/-- C2: `markBulk` is idempotent — under the store invariant of at most one
    row per composite key, submitting the same (course, date, statuses) twice
    in a row yields the same outcome and leaves the Attendance store exactly
    as one submission does. -/
theorem bulk_idempotent (db : Db) (u cid d today : Nat)
    (statuses : List (Nat × String)) (hnd : NoDupKeys db.attendance) :
    bulkAttendancePost ((bulkAttendancePost db u cid d today statuses).2)
        u cid d today statuses =
      bulkAttendancePost db u cid d today statuses := by
  by_cases hfut : today < d
  · rw [bulkPost_future db u cid d today statuses hfut]
    exact bulkPost_future db u cid d today statuses hfut
  · cases hc : findCourse db cid with
    | none =>
      rw [bulkPost_missing db u cid d today statuses hfut hc]
      exact bulkPost_missing db u cid d today statuses hfut hc
    | some course =>
      cases ht : findTeacher db u with
      | some t =>
        by_cases hp : course.teacher = some t.id
        · rw [bulkPost_run_teacher db u cid d today statuses course t hfut hc ht hp]
          dsimp only
          rw [bulkPost_run_teacher
            (Db.mk db.teachers db.students db.courses
              (markLoop course.students course.id d statuses db.attendance))
            u cid d today statuses course t hfut hc ht hp]
          dsimp only
          rw [markLoop_twice course.id d statuses course.students db.attendance hnd]
        · rw [bulkPost_perm db u cid d today statuses course t hfut hc ht hp]
          exact bulkPost_perm db u cid d today statuses course t hfut hc ht hp
      | none =>
        rw [bulkPost_run_general db u cid d today statuses course hfut hc ht]
        dsimp only
        rw [bulkPost_run_general
          (Db.mk db.teachers db.students db.courses
            (markLoop course.students course.id d statuses db.attendance))
          u cid d today statuses course hfut hc ht]
        dsimp only
        rw [markLoop_twice course.id d statuses course.students db.attendance hnd]

/-- Witness for C2: resubmitting the same bulk form on `exampleDbBulk`
    changes nothing. -/
theorem bulk_idempotent_witness :
    bulkAttendancePost
        ((bulkAttendancePost exampleDbBulk 10 1 3 3 [(5, "on")]).2)
        10 1 3 3 [(5, "on")] =
      bulkAttendancePost exampleDbBulk 10 1 3 3 [(5, "on")] :=
  bulk_idempotent exampleDbBulk 10 1 3 3 [(5, "on")] (by decide)

/-- C3: a bulk submission dated strictly after today performs zero writes and
    returns the "Future attendance not allowed" validation error; a
    submission dated today or earlier is never rejected by this check. -/
theorem bulk_future_rejection :
    (∀ (db : Db) (u cid d today : Nat) (statuses : List (Nat × String)),
      today < d →
      bulkAttendancePost db u cid d today statuses = (.futureDateError, db)) ∧
    (∀ (db : Db) (u cid d today : Nat) (statuses : List (Nat × String)),
      d ≤ today →
      (bulkAttendancePost db u cid d today statuses).1 ≠ .futureDateError) := by
  constructor
  · intro db u cid d today statuses h
    exact bulkPost_future db u cid d today statuses h
  · intro db u cid d today statuses h
    have hfut : ¬ today < d := not_lt.mpr h
    cases hc : findCourse db cid with
    | none =>
      rw [bulkPost_missing db u cid d today statuses hfut hc]
      simp
    | some course =>
      cases ht : findTeacher db u with
      | some t =>
        by_cases hp : course.teacher = some t.id
        · rw [bulkPost_run_teacher db u cid d today statuses course t hfut hc ht hp]
          simp
        · rw [bulkPost_perm db u cid d today statuses course t hfut hc ht hp]
          simp
      | none =>
        rw [bulkPost_run_general db u cid d today statuses course hfut hc ht]
        simp

/-- Witness for C3: with today = 3, date 5 is rejected with no writes and
    date 3 is not rejected by the future-date check. -/
theorem bulk_future_rejection_witness :
    bulkAttendancePost exampleDbBulk 10 1 5 3 [] =
      (.futureDateError, exampleDbBulk) ∧
    (bulkAttendancePost exampleDbBulk 10 1 3 3 []).1 ≠ .futureDateError :=
  ⟨bulk_future_rejection.1 exampleDbBulk 10 1 5 3 [] (by decide),
   bulk_future_rejection.2 exampleDbBulk 10 1 3 3 [] (by decide)⟩

/-- C4: a teacher submitting bulk attendance for a course owned by a
    different teacher gets a permission error with the store unchanged; a
    teacher submitting for their own course proceeds to the upsert; an
    identity with no Teacher record is never rejected by this check. -/
theorem bulk_authorization :
    (∀ (db : Db) (u cid d today : Nat) (statuses : List (Nat × String))
        (t1 : Teacher) (course : Course) (t2 : Nat),
      findTeacher db u = some t1 → findCourse db cid = some course →
      course.teacher = some t2 → t2 ≠ t1.id → d ≤ today →
      bulkAttendancePost db u cid d today statuses = (.permissionError, db)) ∧
    (∀ (db : Db) (u cid d today : Nat) (statuses : List (Nat × String))
        (t1 : Teacher) (course : Course),
      findTeacher db u = some t1 → findCourse db cid = some course →
      course.teacher = some t1.id → d ≤ today →
      (bulkAttendancePost db u cid d today statuses).1 = .redirectOk) ∧
    (∀ (db : Db) (u cid d today : Nat) (statuses : List (Nat × String)),
      findTeacher db u = none →
      (bulkAttendancePost db u cid d today statuses).1 ≠ .permissionError) := by
  refine ⟨?_, ?_, ?_⟩
  · intro db u cid d today statuses t1 course t2 ht hc hct hne hd
    refine bulkPost_perm db u cid d today statuses course t1 (not_lt.mpr hd) hc ht ?_
    rw [hct]
    intro h
    exact hne (Option.some.inj h)
  · intro db u cid d today statuses t1 course ht hc hct hd
    rw [bulkPost_run_teacher db u cid d today statuses course t1 (not_lt.mpr hd) hc ht hct]
  · intro db u cid d today statuses ht
    by_cases hfut : today < d
    · rw [bulkPost_future db u cid d today statuses hfut]
      simp
    · cases hc : findCourse db cid with
      | none =>
        rw [bulkPost_missing db u cid d today statuses hfut hc]
        simp
      | some course =>
        rw [bulkPost_run_general db u cid d today statuses course hfut hc ht]
        simp

/-- Witness for C4: teacher user 10 is rejected on teacher 2's course,
    accepted on their own course, and non-teacher user 99 is never rejected
    by the ownership check. -/
theorem bulk_authorization_witness :
    bulkAttendancePost exampleDbAuth 10 2 3 3 [] =
      (.permissionError, exampleDbAuth) ∧
    (bulkAttendancePost exampleDbAuth 10 1 3 3 []).1 = .redirectOk ∧
    (bulkAttendancePost exampleDbAuth 99 1 3 3 []).1 ≠ .permissionError :=
  ⟨bulk_authorization.1 exampleDbAuth 10 2 3 3 [] ⟨1, 10⟩ ⟨2, some 2, [6]⟩ 2
      (by decide) (by decide) (by decide) (by decide) (by decide),
   bulk_authorization.2.1 exampleDbAuth 10 1 3 3 [] ⟨1, 10⟩ ⟨1, some 1, [5]⟩
      (by decide) (by decide) (by decide) (by decide),
   bulk_authorization.2.2 exampleDbAuth 99 1 3 3 [] (by decide)⟩

/-- C5 counterexample: submitting a nonexistent course id is not rejected
    with a handled permission error — the uncaught `Course.DoesNotExist` of
    views.py line 251 propagates (modelled by the `courseMissing` outcome,
    distinct from `permissionError`). -/
theorem bulk_missing_course_counterexample :
    bulkAttendancePost exampleDbMissing 0 99 3 3 [] =
      (.courseMissing, exampleDbMissing) ∧
    BulkOutcome.courseMissing ≠ BulkOutcome.permissionError := by
  constructor
  · decide
  · decide

/-- C5 (amended): a non-future-dated bulk submission whose course id matches
    no existing course performs zero writes, but fails with the unhandled
    `Course.DoesNotExist` exception rather than a handled, user-visible
    permission error. -/
theorem bulk_missing_course_unhandled (db : Db) (u cid d today : Nat)
    (statuses : List (Nat × String)) (hd : d ≤ today)
    (hc : findCourse db cid = none) :
    bulkAttendancePost db u cid d today statuses = (.courseMissing, db) :=
  bulkPost_missing db u cid d today statuses (not_lt.mpr hd) hc

/-- Witness for the amended C5. -/
theorem bulk_missing_course_unhandled_witness :
    bulkAttendancePost exampleDbMissing 0 99 3 3 [] =
      (.courseMissing, exampleDbMissing) :=
  bulk_missing_course_unhandled exampleDbMissing 0 99 3 3 [] (by decide) (by decide)

/-- C6: the student dashboard's per-course percentage is
    `round(present / total * 100, 1)` when records exist and 0 otherwise, and
    the overall percentage is computed from the summed per-course counts —
    not as an average of per-course percentages: on the worked example
    (9/10 present in course A, 0/1 in course B) it yields 81.8, where the
    average of the per-course percentages would be 45. -/
theorem student_percentage_weighting :
    (∀ (db : Db) (sid : Nat),
      (studentDashboard db sid).totalPresent =
        ((db.courses.filter (fun c => c.students.contains sid)).map
          (fun c => (studentCourseStats db sid c).presentCount)).sum ∧
      (studentDashboard db sid).totalClasses =
        ((db.courses.filter (fun c => c.students.contains sid)).map
          (fun c => (studentCourseStats db sid c).totalRecords)).sum ∧
      (studentDashboard db sid).overallPercentage =
        (if (studentDashboard db sid).totalClasses > 0 then
          round1 (((studentDashboard db sid).totalPresent : ℚ) /
            ((studentDashboard db sid).totalClasses : ℚ) * 100)
        else 0)) ∧
    (∀ (db : Db) (sid : Nat) (c : Course),
      (studentCourseStats db sid c).percentage =
        (if (studentCourseStats db sid c).totalRecords > 0 then
          round1 (((studentCourseStats db sid c).presentCount : ℚ) /
            ((studentCourseStats db sid c).totalRecords : ℚ) * 100)
        else 0)) ∧
    (studentDashboard exampleDbPct 1).overallPercentage = 81.8 ∧
    ((studentDashboard exampleDbPct 1).perCourse.map
      (fun s => s.percentage)).sum / 2 = 45 ∧
    (81.8 : ℚ) ≠ 45 := by
  refine ⟨?_, ?_, ?_, ?_, ?_⟩
  · intro db sid
    simp only [studentDashboard]
    rw [studentTotals_foldl db sid (db.courses.filter (fun c => c.students.contains sid)) 0 0 0]
    simp
  · intro db sid c
    rfl
  · have h1 : (studentDashboard exampleDbPct 1).overallPercentage =
        round1 (((9 : ℕ) : ℚ) / ((11 : ℕ) : ℚ) * 100) := rfl
    rw [h1]
    norm_num [round1, round_eq]
  · have h2 : ((studentDashboard exampleDbPct 1).perCourse.map
        (fun s => s.percentage)).sum =
        round1 (((9 : ℕ) : ℚ) / ((10 : ℕ) : ℚ) * 100) +
          (round1 (((0 : ℕ) : ℚ) / ((1 : ℕ) : ℚ) * 100) + 0) := rfl
    rw [h2]
    norm_num [round1, round_eq]
  · norm_num

/-- C7: for a teacher's own course, the teacher dashboard's entry reports
    presentCount, absentCount and totalRecords as the status-partitioned
    counts of that course's Attendance rows and totalClassDays as the number
    of distinct dates carrying at least one row for the course; on the rows
    {(1,C,1,true), (1,C,2,false), (2,C,1,true)} it reports totalClasses = 2,
    totalRecords = 3, presentCount = 2, absentCount = 1. -/
theorem teacher_dashboard_aggregation :
    (∀ (db : Db) (u : Nat) (t : Teacher) (c : Course),
      findTeacher db u = some t → c ∈ db.courses → c.teacher = some t.id →
      ∃ l, teacherDashboard db u = some l ∧ teacherCourseStats db c ∈ l) ∧
    (∀ (db : Db) (c : Course),
      (teacherCourseStats db c).presentCount =
        db.attendance.countP (fun r => r.course == c.id && r.status) ∧
      (teacherCourseStats db c).absentCount =
        db.attendance.countP (fun r => r.course == c.id && !r.status) ∧
      (teacherCourseStats db c).totalRecords =
        db.attendance.countP (fun r => r.course == c.id) ∧
      (teacherCourseStats db c).totalClasses =
        ((db.attendance.filter (fun r => r.course == c.id)).map
          (fun r => r.date)).toFinset.card) ∧
    teacherCourseStats exampleDbAgg ⟨1, some 1, [1, 2]⟩ = ⟨2, 3, 2, 1, 2⟩ := by
  refine ⟨?_, ?_, ?_⟩
  · intro db u t c ht hmem hown
    refine ⟨(db.courses.filter (fun c => c.teacher == some t.id)).map
      (teacherCourseStats db), ?_, ?_⟩
    · unfold teacherDashboard
      rw [ht]
    · exact List.mem_map_of_mem (teacherCourseStats db)
        (List.mem_filter.mpr ⟨hmem, by simp [hown]⟩)
  · intro db c
    refine ⟨?_, ?_, ?_, ?_⟩
    · rw [List.countP_eq_length_filter]
      unfold teacherCourseStats
      dsimp only
      rw [List.filter_filter]
      exact congrArg List.length
        (List.filter_congr (fun r hr => by cases hs : r.status <;> simp [hs]))
    · rw [List.countP_eq_length_filter]
      unfold teacherCourseStats
      dsimp only
      rw [List.filter_filter]
      exact congrArg List.length
        (List.filter_congr (fun r hr => by cases hs : r.status <;> simp [hs]))
    · rw [List.countP_eq_length_filter]
      rfl
    · unfold teacherCourseStats
      dsimp only
      rw [List.card_toFinset]
  · decide

/-- C8: an identity with both a Teacher and a Student record resolves to the
    Teacher role (the Teacher lookup wins); only a Student record resolves to
    Student; neither resolves to the general role; and the dashboard's role
    dispatch leaves the store unchanged. -/
theorem role_resolution_precedence :
    (∀ (db : Db) (u : Nat) (t : Teacher),
      findTeacher db u = some t → resolveRole db u = .teacher t) ∧
    (∀ (db : Db) (u : Nat) (s : Student),
      findTeacher db u = none → findStudent db u = some s →
      resolveRole db u = .student s) ∧
    (∀ (db : Db) (u : Nat),
      findTeacher db u = none → findStudent db u = none →
      resolveRole db u = .general) ∧
    (∀ (db : Db) (u today : Nat), (dashboard db u today).2 = db) := by
  refine ⟨?_, ?_, ?_, ?_⟩
  · intro db u t h
    unfold resolveRole
    rw [h]
  · intro db u s h1 h2
    unfold resolveRole
    rw [h1, h2]
  · intro db u h1 h2
    unfold resolveRole
    rw [h1, h2]
  · intro db u today
    unfold dashboard
    cases hr : resolveRole db u <;> rfl

/-- Witness for C8: user 7 has both a Teacher row (id 1) and a Student row
    (id 2) and resolves to Teacher. -/
theorem role_resolution_precedence_witness :
    resolveRole exampleDbRole 7 = .teacher ⟨1, 7⟩ ∧
    findStudent exampleDbRole 7 = some ⟨2, 7⟩ ∧
    (dashboard exampleDbRole 7 3).2 = exampleDbRole :=
  ⟨role_resolution_precedence.1 exampleDbRole 7 ⟨1, 7⟩ (by decide),
   by decide,
   role_resolution_precedence.2.2.2 exampleDbRole 7 3⟩

/-- C9: a GET of the bulk-attendance page carrying a `?course=` parameter
    whose id matches no course succeeds with no course selected, no student
    list, and the store unchanged — the invalid id is silently ignored. -/
theorem bulk_get_invalid_course (db : Db) (u cid : Nat)
    (h : ∀ c ∈ db.courses, c.id ≠ cid) :
    bulkAttendanceGet db u (some cid) = (none, none, db) := by
  have hc : findCourse db cid = none := by
    unfold findCourse
    rw [List.find?_eq_none]
    intro c hcmem
    simpa using h c hcmem
  simp only [bulkAttendanceGet, hc]

/-- Witness for C9: course id 99 exists nowhere in `exampleDbMissing`. -/
theorem bulk_get_invalid_course_witness :
    bulkAttendanceGet exampleDbMissing 0 (some 99) =
      (none, none, exampleDbMissing) :=
  bulk_get_invalid_course exampleDbMissing 0 99 (by decide)

/-- C10: the single-record `mark_attendance` view applies neither the
    future-date validation nor the ownership check: any submission its form
    accepts is written as one appended Attendance record, the result is
    independent of the requesting identity and of the server date, and in
    particular a teacher writing to a course they do not own on a future
    date still produces the write. -/
theorem mark_attendance_no_guards :
    (∀ (db : Db) (u today : Nat) (sub : SingleSubmission),
      markAttendance db u today true sub =
        { db with attendance :=
            db.attendance ++ [⟨sub.student, sub.course, sub.date, sub.status⟩] }) ∧
    (∀ (db : Db) (u u' today today' : Nat) (sub : SingleSubmission),
      markAttendance db u today true sub = markAttendance db u' today' true sub) ∧
    (∀ (db : Db) (u today : Nat) (sub : SingleSubmission) (t : Teacher)
        (course : Course),
      today < sub.date → findTeacher db u = some t →
      findCourse db sub.course = some course → course.teacher ≠ some t.id →
      (markAttendance db u today true sub).attendance =
        db.attendance ++ [⟨sub.student, sub.course, sub.date, sub.status⟩]) :=
  ⟨fun _ _ _ _ => rfl, fun _ _ _ _ _ _ => rfl, fun _ _ _ _ _ _ _ _ _ _ => rfl⟩

/-- Witness for C10: teacher user 10 writes to course 2 (owned by teacher 2)
    on date 99 with today = 3; the record is appended anyway. -/
theorem mark_attendance_no_guards_witness :
    (markAttendance exampleDbAuth 10 3 true ⟨6, 2, 99, true⟩).attendance =
      exampleDbAuth.attendance ++ [⟨6, 2, 99, true⟩] :=
  mark_attendance_no_guards.2.2 exampleDbAuth 10 3 ⟨6, 2, 99, true⟩ ⟨1, 10⟩
    ⟨2, some 2, [6]⟩ (by decide) (by decide) (by decide) (by decide)

/-- Witness for C7: teacher user 10's dashboard contains the stats entry of
    their course 1, which on the three example rows reports the counts
    ⟨2, 3, 2, 1, 2⟩. -/
theorem teacher_dashboard_aggregation_witness :
    (∃ l, teacherDashboard exampleDbAgg 10 = some l ∧
      teacherCourseStats exampleDbAgg ⟨1, some 1, [1, 2]⟩ ∈ l) :=
  teacher_dashboard_aggregation.1 exampleDbAgg 10 ⟨1, 10⟩ ⟨1, some 1, [1, 2]⟩
    (by decide) (by decide) (by decide)
